import Mathlib

/-!
Shallow embedding of the scoring and question-organization core of the
knowledge-valorisation self-assessment tool (src/utils/scoring_engine.py,
src/utils/question_manager.py, src/utils/insight_generator.py, src/app.py),
together with theorems settling the specification claims about it.

Numeric values are modelled as rationals (the Python code uses floats, but
every claim is about exact structural arithmetic: means of small rationals).
Python exceptions are modelled by `Except Unit`.
-/

namespace KV

/-- A raw answer value as stored in the Streamlit response dict: Python `None`,
an integer (Likert radio values), or a string (`'Yes'` / `'No'` / comments). -/
inductive Answer where
  | null : Answer
  | int (n : ℤ) : Answer
  | str (s : String) : Answer
  deriving DecidableEq, Repr

instance {ε α : Type} [DecidableEq ε] [DecidableEq α] : DecidableEq (Except ε α) := fun a b =>
  match a, b with
  | Except.ok x, Except.ok y =>
      if h : x = y then Decidable.isTrue (congrArg Except.ok h)
      else Decidable.isFalse (fun hc => h (Except.ok.inj hc))
  | Except.error x, Except.error y =>
      if h : x = y then Decidable.isTrue (congrArg Except.error h)
      else Decidable.isFalse (fun hc => h (Except.error.inj hc))
  | Except.ok _, Except.error _ => Decidable.isFalse (fun hc => Except.noConfusion hc)
  | Except.error _, Except.ok _ => Decidable.isFalse (fun hc => Except.noConfusion hc)

/-- Models Python `str.strip()`: drop whitespace at both ends. -/
def pyStrip (s : String) : String :=
  ⟨((s.data.dropWhile Char.isWhitespace).reverse.dropWhile Char.isWhitespace).reverse⟩

/-- Fold a digit list into the natural number it denotes. -/
def digitsToNat (l : List Char) : ℕ :=
  l.foldl (fun a c => 10 * a + (c.toNat - 48)) 0

/-- Models Python `float(s)` on a string: optional sign, decimal digits with an
optional fractional part; anything else (e.g. `"Yes"`) raises, modelled as
`none`.  Python also strips surrounding whitespace first. -/
def pyFloatOfString (s : String) : Option ℚ :=
  let cs := (pyStrip s).toList
  let signAndRest : ℚ × List Char :=
    match cs with
    | '-' :: rest => (-1, rest)
    | '+' :: rest => (1, rest)
    | _ => (1, cs)
  let sign := signAndRest.1
  let body := signAndRest.2
  let intPart := body.takeWhile Char.isDigit
  let rest := body.dropWhile Char.isDigit
  match rest with
  | [] =>
      if intPart = [] then Option.none
      else Option.some (sign * (digitsToNat intPart : ℚ))
  | '.' :: fracRest =>
      let fracPart := fracRest.takeWhile Char.isDigit
      let tail := fracRest.dropWhile Char.isDigit
      if tail = [] ∧ (intPart ≠ [] ∨ fracPart ≠ []) then
        Option.some (sign * ((digitsToNat intPart : ℚ) +
          (digitsToNat fracPart : ℚ) / (10 ^ fracPart.length)))
      else Option.none
  | _ => Option.none

/-- `ScoringEngine.normalize_response` (src/utils/scoring_engine.py lines 52-73).
For `'likert'`: `float(response) if response is not None else 4.0` — an integer
coerces, a string goes through Python `float()` and raises (`Except.error`)
when it is not numeric.  For `'yesno'`: 7.0 for `'Yes'`, 1.0 for `'No'`,
4.0 otherwise.  Any other question-type string yields 4.0. -/
def normalize_response (response : Answer) (question_type : String) : Except Unit ℚ :=
  if question_type = "likert" then
    match response with
    | Answer.null => Except.ok 4
    | Answer.int n => Except.ok (n : ℚ)
    | Answer.str s =>
        match pyFloatOfString s with
        | Option.some v => Except.ok v
        | Option.none => Except.error ()
  else if question_type = "yesno" then
    Except.ok (if response = Answer.str "Yes" then 7
               else if response = Answer.str "No" then 1
               else 4)
  else
    Except.ok 4

/-- Per-question entry of the engine's built-in mapping: channel number,
factor code and question type. -/
structure QInfo where
  channel : ℕ
  factor : String
  qtype : String
  deriving DecidableEq, Repr

/-- `ScoringEngine._create_question_mapping` (src/utils/scoring_engine.py lines
29-50): for `i` in `range(54)`, key `q_<i>`, channel `i // 9 + 1`, factor
`['env','org','ind'][i % 3]`, type `'likert'` if `i < 48` else `'yesno'`. -/
def question_mapping : List (String × QInfo) :=
  (List.range 54).map fun i =>
    ("q_" ++ toString i,
     { channel := i / 9 + 1
       factor := if i % 3 = 0 then "env" else if i % 3 = 1 then "org" else "ind"
       qtype := if i < 48 then "likert" else "yesno" })

/-- A response dict: association list from key to stored answer (Python dicts
keep unique keys; lookup takes the first matching entry). -/
abbrev Responses := List (String × Answer)

/-- Dict membership / indexing: `question_id in responses` paired with
`responses[question_id]`. -/
def rlookup (responses : Responses) (k : String) : Option Answer :=
  (responses.find? fun p => p.1 == k).map Prod.snd

/-- The mapping entries relevant to one `(factor, channel)` group that are
present in the response dict — exactly the questions whose normalized value
`calculate_factor_score` accumulates (lines 87-96). -/
def relevantEntries (responses : Responses) (factor : String) (channel : ℕ) :
    List (String × QInfo) :=
  question_mapping.filter fun p =>
    p.2.channel == channel && p.2.factor == factor && (rlookup responses p.1).isSome

/-- Normalize each present relevant question in mapping order, propagating the
first Python exception. -/
def collectScores (responses : Responses) : List (String × QInfo) → Except Unit (List ℚ)
  | [] => Except.ok []
  | p :: ps => do
      let v ← normalize_response ((rlookup responses p.1).getD Answer.null) p.2.qtype
      let rest ← collectScores responses ps
      pure (v :: rest)

/-- `ScoringEngine.calculate_factor_score` (src/utils/scoring_engine.py lines
75-98): mean of the normalized values of the relevant present questions, or
4.0 when none is present (`np.mean(relevant_scores) if relevant_scores else
4.0`). -/
def calculate_factor_score (responses : Responses) (factor : String) (channel : ℕ) :
    Except Unit ℚ := do
  let scores ← collectScores responses (relevantEntries responses factor channel)
  pure (if scores.isEmpty then 4 else scores.sum / scores.length)

/-- Result of `calculate_channel_score`: the three factor scores and the
channel average. -/
structure ChannelResult where
  env : ℚ
  org : ℚ
  ind : ℚ
  channel_average : ℚ
  deriving DecidableEq, Repr

/-- `ScoringEngine.calculate_channel_score` (src/utils/scoring_engine.py lines
100-122): one factor score per factor key (`env`, `org`, `ind` in dict order)
and their mean (`np.mean(list(factor_scores.values()))`). -/
def calculate_channel_score (responses : Responses) (channel : ℕ) :
    Except Unit ChannelResult := do
  let e ← calculate_factor_score responses "env" channel
  let o ← calculate_factor_score responses "org" channel
  let i ← calculate_factor_score responses "ind" channel
  pure { env := e, org := o, ind := i, channel_average := (e + o + i) / 3 }

/-- Result of `calculate_all_scores`, with the per-channel results keyed by
channel number, the total score, the per-factor summary means and the
completion statistics. -/
structure AllScores where
  channels : List (ℕ × ChannelResult)
  total_score : ℚ
  env_summary : ℚ
  org_summary : ℚ
  ind_summary : ℚ
  response_count : ℕ
  completion_rate : ℚ
  deriving DecidableEq, Repr

/-- `ScoringEngine.calculate_all_scores` (src/utils/scoring_engine.py lines
124-176): channel results for channels 1..6, total score as the mean of the
channel averages, factor summaries as means of the per-channel factor scores
(default 4.0 on an empty list), `response_count` as the number of non-null
values in the response dict, and `completion_rate` as that count over the
mapping size (0 if the mapping were empty).  `channelLoop` is the
`for channel_num in self.channels.keys()` loop (lines 145-158), accumulating
one `ChannelResult` per channel number. -/
def channelLoop (responses : Responses) : List ℕ → Except Unit (List (ℕ × ChannelResult))
  | [] => Except.ok []
  | c :: cs => do
      let r ← calculate_channel_score responses c
      let rest ← channelLoop responses cs
      pure ((c, r) :: rest)

/-- The channel-number keys of the engine's `self.channels` dict, in insertion
order (src/utils/scoring_engine.py lines 11-18). -/
def channel_keys : List ℕ := [1, 2, 3, 4, 5, 6]

def calculate_all_scores (responses : Responses) : Except Unit AllScores := do
  let cs ← channelLoop responses channel_keys
  let channel_scores := cs.map fun p => p.2.channel_average
  let envs := cs.map fun p => p.2.env
  let orgs := cs.map fun p => p.2.org
  let inds := cs.map fun p => p.2.ind
  let total_questions := question_mapping.length
  let answered := (responses.filter fun p => p.2 != Answer.null).length
  pure {
    channels := cs
    total_score := channel_scores.sum / channel_scores.length
    env_summary := if envs.isEmpty then 4 else envs.sum / envs.length
    org_summary := if orgs.isEmpty then 4 else orgs.sum / orgs.length
    ind_summary := if inds.isEmpty then 4 else inds.sum / inds.length
    response_count := answered
    completion_rate := if total_questions > 0 then (answered : ℚ) / total_questions else 0 }

/-- `get_maturity_level` (src/app.py lines 523-532): threshold the score into
four tiers (the Italian labels correspond to initial / basic / intermediate /
advanced). -/
def get_maturity_level (score : ℚ) : String :=
  if score < 4 then "Iniziale"
  else if score < 5 then "Base"
  else if score < 6 then "Intermedio"
  else "Avanzato"

/-- The maturity-level selection inside
`ScoringEngine.get_performance_insights` (src/utils/scoring_engine.py lines
214-223), written there with `>=` thresholds from the top down. -/
def maturity_level_engine (total_score : ℚ) : String :=
  if total_score ≥ 6 then "Avanzato"
  else if total_score ≥ 5 then "Intermedio"
  else if total_score ≥ 4 then "Base"
  else "Iniziale"

/-- A question record as produced by `QuestionManager` (src/utils/
question_manager.py).  The context fields are optional because the running
category/sub-factor/actor context starts as Python `None`.  The constant
Likert scale labels and yes/no option labels of the source dicts are fixed
display data and are not modelled. -/
structure Question where
  id : String
  question : String
  qtype : String
  channel : Option String
  factor : Option String
  actor : Option String
  deriving DecidableEq, Repr

/-- `QuestionManager._get_fallback_questions` (src/utils/question_manager.py
lines 173-249): the fixed six-question fallback list. -/
def fallback_questions : List Question :=
  [ { id := "q_0"
      question := "National/regional policy frameworks effectively support sustained industry–academia co-creation."
      qtype := "likert"
      channel := Option.some "n.1 Academia-Industry joint research & mobility"
      factor := Option.some "env"
      actor := Option.some "ACADEMIA incl. research and technology organisations" },
    { id := "q_1"
      question := "Are there formal joint research agreements with industry?"
      qtype := "yesno"
      channel := Option.some "n.1 Academia-Industry joint research & mobility"
      factor := Option.some "env"
      actor := Option.some "ACADEMIA incl. research and technology organisations" },
    { id := "q_2"
      question := "IP/data governance policies are adapted to enable equitable sharing in joint R&I."
      qtype := "likert"
      channel := Option.some "n.1 Academia-Industry joint research & mobility"
      factor := Option.some "org"
      actor := Option.some "INDUSTRY incl. SMEs and start-ups" },
    { id := "q_3"
      question := "Are research infrastructures co-governed or co-used with industry (e.g. joint labs, testbeds)?"
      qtype := "yesno"
      channel := Option.some "n.1 Academia-Industry joint research & mobility"
      factor := Option.some "org"
      actor := Option.some "ACADEMIA incl. research and technology organisations" },
    { id := "q_4"
      question := "Researchers receive training or mentoring for working with industrial partners."
      qtype := "likert"
      channel := Option.some "n.1 Academia-Industry joint research & mobility"
      factor := Option.some "ind"
      actor := Option.some "ACADEMIA incl. research and technology organisations" },
    { id := "q_5"
      question := "Are researchers formally authorised to lead or co-lead joint projects with industry?"
      qtype := "yesno"
      channel := Option.some "n.1 Academia-Industry joint research & mobility"
      factor := Option.some "ind"
      actor := Option.some "ACADEMIA incl. research and technology organisations" } ]

/-- One spreadsheet row, with the five columns the extractor reads.  `none`
models a `pd.isna` cell. -/
structure Row where
  channels : Option String
  factors : Option String
  actors : Option String
  likert_text : Option String
  yesno_text : Option String
  deriving DecidableEq, Repr

/-- The carry-forward context update for one column (src/utils/
question_manager.py lines 48-55): a cell that is non-NA and non-blank after
stripping replaces the running value (stripped); otherwise the running value
is kept. -/
def updateCtx (cur : Option String) (cell : Option String) : Option String :=
  match cell with
  | Option.some s => if pyStrip s ≠ "" then Option.some (pyStrip s) else cur
  | Option.none => cur

/-- Whether a question-text cell emits a Question (lines 59 and 83): non-NA,
non-blank after stripping, and stripped length above the threshold 10. -/
def emitsText (cell : Option String) : Bool :=
  match cell with
  | Option.some s => decide (pyStrip s ≠ "") && decide ((pyStrip s).length > 10)
  | Option.none => false

/-- Running extractor state: the carry-forward context and the sequential
question counter. -/
structure ExtractState where
  current_channel : Option String
  current_factor : Option String
  current_actor : Option String
  question_counter : ℕ
  deriving DecidableEq, Repr

/-- The initial extractor state (lines 41-44). -/
def initState : ExtractState :=
  { current_channel := Option.none
    current_factor := Option.none
    current_actor := Option.none
    question_counter := 0 }

/-- Processing of a single spreadsheet row inside
`QuestionManager._extract_structured_questions` (lines 46-94): update the
carry-forward context, then emit at most one Likert question (from the Likert
text column) followed by at most one yes/no question (from the yes/no text
column), each consuming one sequential `q_<counter>` identifier. -/
def processRow (st : ExtractState) (row : Row) : ExtractState × List Question :=
  let ch := updateCtx st.current_channel row.channels
  let fa := updateCtx st.current_factor row.factors
  let ac := updateCtx st.current_actor row.actors
  let likertStep : List Question × ℕ :=
    if emitsText row.likert_text then
      ([{ id := "q_" ++ toString st.question_counter
          question := pyStrip (row.likert_text.getD "")
          qtype := "likert", channel := ch, factor := fa, actor := ac }],
       st.question_counter + 1)
    else ([], st.question_counter)
  let yesnoStep : List Question × ℕ :=
    if emitsText row.yesno_text then
      ([{ id := "q_" ++ toString likertStep.2
          question := pyStrip (row.yesno_text.getD "")
          qtype := "yesno", channel := ch, factor := fa, actor := ac }],
       likertStep.2 + 1)
    else ([], likertStep.2)
  ({ current_channel := ch, current_factor := fa, current_actor := ac
     question_counter := yesnoStep.2 },
   likertStep.1 ++ yesnoStep.1)

/-- Fold `processRow` over the rows, concatenating the emitted questions. -/
def extractAux : ExtractState → List Row → List Question
  | _, [] => []
  | st, r :: rs =>
      let step := processRow st r
      step.2 ++ extractAux step.1 rs

/-- `QuestionManager._extract_structured_questions` (lines 37-96) on the row
list of the parsed sheet. -/
def extract_structured_questions (df : List Row) : List Question :=
  extractAux initState df

/-- `QuestionManager.load_questions_from_excel` (lines 14-35): a missing file
or a parse failure falls back to the fixed list; a parsed sheet goes through
the structured extraction.  The function is total: no branch raises. -/
def load_questions_from_excel (file_exists : Bool) (parsed : Except Unit (List Row)) :
    List Question :=
  if !file_exists then fallback_questions
  else
    match parsed with
    | Except.error _ => fallback_questions
    | Except.ok df => extract_structured_questions df

/-- Two-decimal rendering of a rational, modelling Python `f"{x:.2f}"`
(round-half-to-even on the hundredths, as Python formatting does). -/
def fmt2 (q : ℚ) : String :=
  let t := q * 100
  let n : ℤ := ⌊t⌋
  let frac := t - n
  let m : ℤ :=
    if frac > 1 / 2 then n + 1
    else if frac < 1 / 2 then n
    else if n % 2 = 0 then n else n + 1
  let sgn := if m < 0 then "-" else ""
  let a := m.natAbs
  sgn ++ toString (a / 100) ++ "." ++ (if a % 100 < 10 then "0" else "") ++ toString (a % 100)

/-- Python `max(d, key=d.get)` over an association list in insertion order:
keep the current best unless a later value is strictly greater. -/
def pyMaxKey (l : List (String × ℚ)) : String :=
  match l with
  | [] => ""
  | x :: xs => (xs.foldl (fun b p => if p.2 > b.2 then p else b) x).1

/-- Python `min(d, key=d.get)` over an association list in insertion order:
keep the current best unless a later value is strictly smaller. -/
def pyMinKey (l : List (String × ℚ)) : String :=
  match l with
  | [] => ""
  | x :: xs => (xs.foldl (fun b p => if p.2 < b.2 then p else b) x).1

/-- Dict `.get(k, d)` on an association list. -/
def dget (fs : List (String × ℚ)) (k : String) (d : ℚ) : ℚ :=
  ((fs.find? fun p => p.1 == k).map Prod.snd).getD d

/-- `InsightGenerator._generate_template_narrative` (src/utils/
insight_generator.py lines 242-293): the deterministic template strategy.
`sentiment` is the `overall_sentiment` label of the sentiment analysis. -/
def generate_template_narrative (channel_name : String) (score : ℚ)
    (factors : List (String × ℚ)) (sentiment : String) : String :=
  let performance_desc :=
    if score ≥ 6 then "mostra una performance eccellente"
    else if score ≥ 5 then "presenta una buona performance"
    else if score ≥ 4 then "mostra una performance nella media"
    else "presenta aree significative di miglioramento"
  let env_score := dget factors "env" 4
  let org_score := dget factors "org" 4
  let ind_score := dget factors "ind" 4
  let factor_scores : List (String × ℚ) :=
    [("Environmental", env_score), ("Organizational", org_score), ("Individual", ind_score)]
  let strongest_factor := pyMaxKey factor_scores
  let weakest_factor := pyMinKey factor_scores
  let sentiment_desc :=
    if sentiment = "positive" then "un atteggiamento positivo"
    else if sentiment = "negative" then "alcune preoccupazioni"
    else "un approccio equilibrato"
  "**Situazione Attuale:** Il canale " ++ channel_name ++ " " ++ performance_desc ++
    " con un punteggio di " ++ fmt2 score ++ "/7. \n" ++
  "        L'analisi rivela " ++ sentiment_desc ++
    " verso questo ambito della valorizzazione della conoscenza.\n" ++
  "        \n" ++
  "        **Punti di Forza:** Il fattore " ++ strongest_factor.toLower ++
    " emerge come area di eccellenza \n" ++
  "        (" ++ fmt2 (dget factor_scores strongest_factor 4) ++
    "/7), indicando una solida base in questo aspetto.\n" ++
  "        \n" ++
  "        **Aree di Miglioramento:** Il fattore " ++ weakest_factor.toLower ++
    " presenta opportunità di sviluppo \n" ++
  "        (" ++ fmt2 (dget factor_scores weakest_factor 4) ++
    "/7) e potrebbe beneficiare di interventi mirati.\n" ++
  "        \n" ++
  "        **Raccomandazioni:** Concentrarsi sul rafforzamento degli aspetti " ++
    weakest_factor.toLower ++ " \n" ++
  "        mantenendo l'eccellenza negli aspetti " ++ strongest_factor.toLower ++
    ". Implementare strategie \n" ++
  "        specifiche per questo canale basate sulle best practice del settore."

/-- `InsightGenerator._generate_ai_narrative` (src/utils/insight_generator.py
lines 187-240): the whole body is one `try`; on a successful round trip the
service text is returned stripped, and the `except` arm of ANY failure
returns `_generate_template_narrative` on the same arguments (the failure is
printed, never re-raised).  The external round trip is modelled by the
`service` argument. -/
def generate_ai_narrative (service : Except String String) (channel_name : String)
    (score : ℚ) (factors : List (String × ℚ)) (sentiment : String) : String :=
  match service with
  | Except.ok content => pyStrip content
  | Except.error _ => generate_template_narrative channel_name score factors sentiment

/-- `InsightGenerator._generate_template_executive_summary` (src/utils/
insight_generator.py lines 328-356). -/
def generate_template_executive_summary (total_score : ℚ) (best_channel : String)
    (worst_channel : String) (sentiment : String) (comparison : String) : String :=
  let maturity_level :=
    if total_score ≥ 6 then "avanzato"
    else if total_score ≥ 5 then "intermedio"
    else if total_score ≥ 4 then "base"
    else "iniziale"
  "**Valutazione Complessiva:** L'organizzazione presenta un livello di maturità " ++
    maturity_level ++ " \n" ++
  "        nella valorizzazione della conoscenza, con un punteggio totale di " ++
    fmt2 total_score ++ "/7.\n" ++
  "        \n" ++
  "        **Punti di Forza Principali:**\n" ++
  "        • " ++ best_channel ++ " emerge come area di eccellenza\n" ++
  "        • Atteggiamento generale " ++ sentiment ++ " verso la collaborazione\n" ++
  "        • Performance " ++ comparison ++ " rispetto al benchmark del caso Bologna\n" ++
  "        \n" ++
  "        **Aree di Miglioramento:**\n" ++
  "        • " ++ worst_channel ++ " richiede attenzione prioritaria\n" ++
  "        • Necessità di strategie integrate per il miglioramento continuo\n" ++
  "        • Opportunità di apprendimento dalle best practice internazionali\n" ++
  "        \n" ++
  "        **Raccomandazioni Strategiche:**\n" ++
  "        • Sviluppare un piano d'azione focalizzato su " ++ worst_channel ++ "\n" ++
  "        • Capitalizzare sui successi in " ++ best_channel ++
    " per guidare il miglioramento\n" ++
  "        • Implementare meccanismi di monitoraggio e valutazione continua"

/-- `InsightGenerator._generate_ai_executive_summary` (src/utils/
insight_generator.py lines 358-399): same try/except shape — a success
returns the service text stripped, any failure returns the template executive
summary on the same arguments. -/
def generate_ai_executive_summary (service : Except String String) (total_score : ℚ)
    (best_channel : String) (worst_channel : String) (sentiment : String)
    (comparison : String) : String :=
  match service with
  | Except.ok content => pyStrip content
  | Except.error _ =>
      generate_template_executive_summary total_score best_channel worst_channel
        sentiment comparison

/-- The score-only part of an `AllScores` record: the per-channel results and
the total score, without the completion statistics. -/
def scorePart (a : AllScores) : List (ℕ × ChannelResult) × ℚ :=
  (a.channels, a.total_score)

/-- The expected aggregation result for an empty response dict — every score
neutral at 4.0 and zero completion; used as a concrete test vector. -/
def emptyAllScores : AllScores :=
  { channels := channel_keys.map fun c => (c, ⟨4, 4, 4, 4⟩)
    total_score := 4
    env_summary := 4
    org_summary := 4
    ind_summary := 4
    response_count := 0
    completion_rate := 0 }

theorem ebind_ok (a : α) (f : α → Except ε β) :
    (bind (Except.ok a) f : Except ε β) = f a := rfl

theorem ebind_error (e : ε) (f : α → Except ε β) :
    (bind (Except.error e) f : Except ε β) = Except.error e := rfl

theorem epure (a : α) : (pure a : Except ε α) = Except.ok a := rfl

/-- C3: the Normalizer maps a likert answer to its own numeric value (4.0 when
the answer is Python `None`), and a yes/no answer to 7.0 for `'Yes'`, 1.0 for
`'No'` and 4.0 for anything else, including a missing answer. -/
theorem kv_C3_normalizer :
    (∀ n : ℤ, normalize_response (Answer.int n) "likert" = Except.ok (n : ℚ))
    ∧ normalize_response Answer.null "likert" = Except.ok 4
    ∧ (∀ a : Answer, normalize_response a "yesno" =
        Except.ok (if a = Answer.str "Yes" then 7
                   else if a = Answer.str "No" then 1 else 4))
    ∧ normalize_response Answer.null "yesno" = Except.ok 4 :=
  ⟨fun _ => rfl, rfl, fun _ => rfl, rfl⟩

/-- C4 (code evaluated at the failing inputs): the claim says the Normalizer
never fails and never leaves [1,7], but `float(response)` in the likert branch
is unguarded — the type-mismatched answer `'Yes'` raises, and the malformed
numeric answer 100 is passed through as 100.0, outside [1,7]. -/
theorem kv_C4_normalizer_failure :
    normalize_response (Answer.str "Yes") "likert" = Except.error ()
    ∧ normalize_response (Answer.int 100) "likert" = Except.ok 100
    ∧ ¬ ((100 : ℚ) ≤ 7) := by
  refine ⟨by decide, rfl, by norm_num⟩

/-- C6: the maturity tier thresholds — score < 4.0 is the initial tier
(`Iniziale`), < 5.0 basic (`Base`), < 6.0 intermediate (`Intermedio`),
otherwise advanced (`Avanzato`); exactly 5.0 is intermediate; and the
threshold cascade in `ScoringEngine.get_performance_insights` agrees with
`get_maturity_level` everywhere. -/
theorem kv_C6_maturity :
    (∀ s : ℚ, s < 4 → get_maturity_level s = "Iniziale")
    ∧ (∀ s : ℚ, 4 ≤ s → s < 5 → get_maturity_level s = "Base")
    ∧ (∀ s : ℚ, 5 ≤ s → s < 6 → get_maturity_level s = "Intermedio")
    ∧ (∀ s : ℚ, 6 ≤ s → get_maturity_level s = "Avanzato")
    ∧ get_maturity_level 5 = "Intermedio"
    ∧ (∀ s : ℚ, maturity_level_engine s = get_maturity_level s) := by
  refine ⟨?_, ?_, ?_, ?_, ?_, ?_⟩
  · intro s h
    simp [get_maturity_level, h]
  · intro s h1 h2
    rw [get_maturity_level, if_neg (not_lt.2 h1), if_pos h2]
  · intro s h1 h2
    rw [get_maturity_level, if_neg (not_lt.2 (by linarith)), if_neg (not_lt.2 h1), if_pos h2]
  · intro s h
    rw [get_maturity_level, if_neg (not_lt.2 (by linarith)), if_neg (not_lt.2 (by linarith)),
      if_neg (not_lt.2 h)]
  · norm_num [get_maturity_level]
  · intro s
    unfold maturity_level_engine get_maturity_level
    split_ifs <;> first | rfl | linarith

/-- C6 witness: concrete scores through every tier, via `kv_C6_maturity`. -/
theorem kv_C6_maturity_witness :
    get_maturity_level 3 = "Iniziale" ∧ get_maturity_level (9 / 2) = "Base"
    ∧ get_maturity_level 5 = "Intermedio" ∧ get_maturity_level (13 / 2) = "Avanzato"
    ∧ maturity_level_engine 5 = get_maturity_level 5 :=
  ⟨kv_C6_maturity.1 3 (by norm_num),
   kv_C6_maturity.2.1 (9 / 2) (by norm_num) (by norm_num),
   kv_C6_maturity.2.2.1 5 (by norm_num) (by norm_num),
   kv_C6_maturity.2.2.2.1 (13 / 2) (by norm_num),
   kv_C6_maturity.2.2.2.2.2 5⟩

/-- C7: the Loader never raises on a missing or unparsable source — it is a
total function returning the fixed fallback list in both cases — and that
list has exactly 6 Questions in one category, covering all three sub-factors
(env, org, ind) and both question types (likert and yesno). -/
theorem kv_C7_loader_fallback :
    (∀ parsed : Except Unit (List Row),
        load_questions_from_excel false parsed = fallback_questions)
    ∧ load_questions_from_excel true (Except.error ()) = fallback_questions
    ∧ fallback_questions.length = 6
    ∧ fallback_questions.map Question.channel =
        List.replicate 6 (Option.some "n.1 Academia-Industry joint research & mobility")
    ∧ fallback_questions.map Question.factor =
        [Option.some "env", Option.some "env", Option.some "org",
         Option.some "org", Option.some "ind", Option.some "ind"]
    ∧ fallback_questions.map Question.qtype =
        ["likert", "yesno", "likert", "yesno", "likert", "yesno"]
    ∧ fallback_questions.map Question.id = ["q_0", "q_1", "q_2", "q_3", "q_4", "q_5"] :=
  ⟨fun _ => rfl, rfl, by decide, by decide, by decide, by decide, by decide⟩

/-- C9: on any failure of the external text-generation service the insight
functions return exactly the template strategy's output on the same inputs —
the failure is absorbed, never re-raised (both functions are total), for both
the per-channel narrative and the executive summary. -/
theorem kv_C9_ai_fallback :
    (∀ (err : String) (channel_name : String) (score : ℚ)
        (factors : List (String × ℚ)) (sentiment : String),
        generate_ai_narrative (Except.error err) channel_name score factors sentiment =
          generate_template_narrative channel_name score factors sentiment)
    ∧ (∀ (err : String) (total_score : ℚ) (best worst sentiment comparison : String),
        generate_ai_executive_summary (Except.error err) total_score best worst
            sentiment comparison =
          generate_template_executive_summary total_score best worst sentiment comparison) :=
  ⟨fun _ _ _ _ _ => rfl, fun _ _ _ _ _ _ => rfl⟩

/-- When every entry of the list normalizes without a Python exception, the
score accumulation is the image of the per-entry normalized value. -/
theorem collectScores_map (responses : Responses) (g : String × QInfo → ℚ) :
    ∀ l : List (String × QInfo),
      (∀ p ∈ l, normalize_response ((rlookup responses p.1).getD Answer.null) p.2.qtype =
        Except.ok (g p)) →
      collectScores responses l = Except.ok (l.map g) := by
  intro l
  induction l with
  | nil => intro _; rfl
  | cons p ps ih =>
      intro h
      have hp := h p (List.mem_cons_self p ps)
      have hps := ih fun q hq => h q (List.mem_cons_of_mem p hq)
      simp only [collectScores, hp, hps, ebind_ok, epure, List.map_cons]

/-- C1: the sub-factor score for a (channel, factor) group is the arithmetic
mean of the normalized values of exactly the group's questions that are
present in the response dict (membership in `relevantEntries` is equivalent
to being a group question whose key is in the dict — absent questions are
excluded, not defaulted per-question), and an empty group of present
questions yields exactly 4.0.  The hypothesis supplies the normalized value
of each present answer (i.e. none of them raises). -/
theorem kv_C1_subfactor_score (responses : Responses) (factor : String) (channel : ℕ)
    (normValue : String × QInfo → ℚ)
    (h : ∀ p ∈ relevantEntries responses factor channel,
        normalize_response ((rlookup responses p.1).getD Answer.null) p.2.qtype =
          Except.ok (normValue p)) :
    calculate_factor_score responses factor channel =
      Except.ok
        (if relevantEntries responses factor channel = [] then 4
         else ((relevantEntries responses factor channel).map normValue).sum /
           ((relevantEntries responses factor channel).map normValue).length)
    ∧ (∀ (qid : String) (info : QInfo),
        (qid, info) ∈ relevantEntries responses factor channel ↔
          ((qid, info) ∈ question_mapping ∧ info.channel = channel ∧
            info.factor = factor ∧ (rlookup responses qid).isSome = true))
    ∧ (relevantEntries responses factor channel = [] →
        calculate_factor_score responses factor channel = Except.ok 4) := by
  refine ⟨?_, ?_, ?_⟩
  · rw [calculate_factor_score, collectScores_map responses normValue _ h, ebind_ok, epure]
    by_cases hnil : relevantEntries responses factor channel = []
    · simp [hnil]
    · simp [hnil, List.isEmpty_iff]
  · intro qid info
    simp [relevantEntries, List.mem_filter, and_assoc]
  · intro hnil
    rw [calculate_factor_score, hnil]
    rfl

/-- C1 witness: with likert answers 6 and 6 on channel 1's `env` questions
`q_0`, `q_3` (and an `org` answer 2 that must not leak in), the `env`
sub-factor score of channel 1 is 6.0, and the fully unanswered `ind` group of
channel 1 scores exactly 4.0. -/
theorem kv_C1_subfactor_score_witness :
    calculate_factor_score
        [("q_0", Answer.int 6), ("q_3", Answer.int 6), ("q_1", Answer.int 2)] "env" 1 =
      Except.ok 6
    ∧ calculate_factor_score
        [("q_0", Answer.int 6), ("q_3", Answer.int 6), ("q_1", Answer.int 2)] "ind" 1 =
      Except.ok 4 := by
  constructor
  · have h := kv_C1_subfactor_score
      [("q_0", Answer.int 6), ("q_3", Answer.int 6), ("q_1", Answer.int 2)] "env" 1
      (fun _ => 6) (by decide)
    rw [h.1,
      show relevantEntries
          [("q_0", Answer.int 6), ("q_3", Answer.int 6), ("q_1", Answer.int 2)] "env" 1 =
        [("q_0", ⟨1, "env", "likert"⟩), ("q_3", ⟨1, "env", "likert"⟩)] from by decide]
    norm_num
    decide
  · have h := kv_C1_subfactor_score
      [("q_0", Answer.int 6), ("q_3", Answer.int 6), ("q_1", Answer.int 2)] "ind" 1
      (fun _ => 4) (by decide)
    exact h.2.2 (by decide)

theorem question_mapping_length : question_mapping.length = 54 := by decide

/-- A successful channel computation always carries the mean of its own three
factor scores as the channel average. -/
theorem channel_score_ok (responses : Responses) (c : ℕ) (r : ChannelResult)
    (h : calculate_channel_score responses c = Except.ok r) :
    r.channel_average = (r.env + r.org + r.ind) / 3 := by
  unfold calculate_channel_score at h
  cases he : calculate_factor_score responses "env" c with
  | error e => rw [he, ebind_error] at h; exact absurd h (by simp)
  | ok ev =>
      rw [he, ebind_ok] at h
      cases ho : calculate_factor_score responses "org" c with
      | error e => rw [ho, ebind_error] at h; exact absurd h (by simp)
      | ok ov =>
          rw [ho, ebind_ok] at h
          cases hi : calculate_factor_score responses "ind" c with
          | error e => rw [hi, ebind_error] at h; exact absurd h (by simp)
          | ok iv =>
              rw [hi, ebind_ok, epure] at h
              cases h
              rfl

/-- A successful channel loop visits exactly the requested channel numbers in
order, and every recorded result comes from `calculate_channel_score`. -/
theorem channelLoop_ok (responses : Responses) :
    ∀ (ns : List ℕ) (cs : List (ℕ × ChannelResult)),
      channelLoop responses ns = Except.ok cs →
      cs.map Prod.fst = ns ∧
        ∀ c r, (c, r) ∈ cs → calculate_channel_score responses c = Except.ok r := by
  intro ns
  induction ns with
  | nil =>
      intro cs h
      cases h
      exact ⟨rfl, fun c r hm => absurd hm (List.not_mem_nil _)⟩
  | cons n ns ih =>
      intro cs h
      unfold channelLoop at h
      cases hc : calculate_channel_score responses n with
      | error e => rw [hc, ebind_error] at h; exact absurd h (by simp)
      | ok r =>
          rw [hc, ebind_ok] at h
          cases hl : channelLoop responses ns with
          | error e => rw [hl, ebind_error] at h; exact absurd h (by simp)
          | ok rest =>
              rw [hl, ebind_ok, epure] at h
              cases h
              obtain ⟨ihm, ihs⟩ := ih rest hl
              refine ⟨by simp [ihm], ?_⟩
              intro c r' hm
              rcases List.mem_cons.1 hm with hm | hm
              · cases hm; exact hc
              · exact ihs c r' hm

/-- A response dict that contains none of the mapping's question keys makes
every relevance filter empty. -/
theorem relevantEntries_no_keys (responses : Responses)
    (h : ∀ p ∈ question_mapping, rlookup responses p.1 = Option.none)
    (factor : String) (channel : ℕ) :
    relevantEntries responses factor channel = [] := by
  apply List.filter_eq_nil_iff.mpr
  intro p hp
  simp [h p hp]

/-- With no mapping key present, every sub-factor score is the neutral 4.0. -/
theorem factor_score_no_keys (responses : Responses)
    (h : ∀ p ∈ question_mapping, rlookup responses p.1 = Option.none)
    (factor : String) (channel : ℕ) :
    calculate_factor_score responses factor channel = Except.ok 4 := by
  rw [calculate_factor_score, relevantEntries_no_keys responses h factor channel]
  rfl

/-- With no mapping key present, every channel result is neutral. -/
theorem channel_score_no_keys (responses : Responses)
    (h : ∀ p ∈ question_mapping, rlookup responses p.1 = Option.none) (c : ℕ) :
    calculate_channel_score responses c = Except.ok ⟨4, 4, 4, 4⟩ := by
  rw [calculate_channel_score, factor_score_no_keys responses h "env" c, ebind_ok,
    factor_score_no_keys responses h "org" c, ebind_ok,
    factor_score_no_keys responses h "ind" c, ebind_ok, epure]
  norm_num

/-- With no mapping key present, the channel loop returns neutral results. -/
theorem channelLoop_no_keys (responses : Responses)
    (h : ∀ p ∈ question_mapping, rlookup responses p.1 = Option.none) :
    ∀ ns : List ℕ,
      channelLoop responses ns = Except.ok (ns.map fun c => (c, ⟨4, 4, 4, 4⟩)) := by
  intro ns
  induction ns with
  | nil => rfl
  | cons n ns ih =>
      rw [channelLoop, channel_score_no_keys responses h n, ebind_ok, ih, ebind_ok, epure,
        List.map_cons]

/-- With no mapping key present, the whole aggregation is neutral and the
completion statistics still count every non-null dict entry. -/
theorem all_scores_no_keys (responses : Responses)
    (h : ∀ p ∈ question_mapping, rlookup responses p.1 = Option.none) :
    calculate_all_scores responses =
      Except.ok
        { channels := channel_keys.map fun c => (c, ⟨4, 4, 4, 4⟩)
          total_score := 4
          env_summary := 4
          org_summary := 4
          ind_summary := 4
          response_count := (responses.filter fun p => p.2 != Answer.null).length
          completion_rate :=
            ((responses.filter fun p => p.2 != Answer.null).length : ℚ) / 54 } := by
  rw [calculate_all_scores, channelLoop_no_keys responses h channel_keys, ebind_ok, epure]
  rw [question_mapping_length]
  norm_num [channel_keys]

/-- Any successful aggregation counts every non-null dict entry in
`response_count` and reports `completion_rate` as that count over 54. -/
theorem response_count_of_ok (responses : Responses) (res : AllScores)
    (h : calculate_all_scores responses = Except.ok res) :
    res.response_count = (responses.filter fun p => p.2 != Answer.null).length
    ∧ res.completion_rate = (res.response_count : ℚ) / 54 := by
  unfold calculate_all_scores at h
  cases hl : channelLoop responses channel_keys with
  | error e => rw [hl, ebind_error] at h; exact absurd h (by simp)
  | ok cs =>
      rw [hl, ebind_ok, epure] at h
      cases h
      refine ⟨rfl, ?_⟩
      show (if question_mapping.length > 0 then _ else 0) = _
      rw [question_mapping_length]
      norm_num

/-- C2: in every successful aggregation, each channel's score is the
unweighted mean of its own three sub-factor scores, the channels visited are
exactly 1..6, and the overall score is the unweighted mean of the six channel
scores. -/
theorem kv_C2_category_and_overall (responses : Responses) (res : AllScores)
    (h : calculate_all_scores responses = Except.ok res) :
    (∀ c r, (c, r) ∈ res.channels → r.channel_average = (r.env + r.org + r.ind) / 3)
    ∧ res.channels.map Prod.fst = channel_keys
    ∧ res.total_score =
        ((res.channels.map fun p => p.2.channel_average).sum) / 6 := by
  unfold calculate_all_scores at h
  cases hl : channelLoop responses channel_keys with
  | error e => rw [hl, ebind_error] at h; exact absurd h (by simp)
  | ok cs =>
      rw [hl, ebind_ok, epure] at h
      cases h
      obtain ⟨hmap, hmem⟩ := channelLoop_ok responses channel_keys cs hl
      refine ⟨?_, hmap, ?_⟩
      · intro c r hm
        exact channel_score_ok responses c r (hmem c r hm)
      · have hlen : cs.length = 6 := by
          have hc := congrArg List.length hmap
          simpa [channel_keys] using hc
        show ((cs.map fun p => p.2.channel_average).sum) /
            ((cs.map fun p => p.2.channel_average).length : ℚ) = _
        rw [List.length_map, hlen]
        norm_num

/-- C2 witness: the empty response dict aggregates successfully; via
`kv_C2_category_and_overall`, channel 1's neutral result is the mean of its
factor scores, the channel keys are 1..6, and the overall score is the mean
of the channel scores. -/
theorem kv_C2_category_and_overall_witness :
    (⟨4, 4, 4, 4⟩ : ChannelResult).channel_average =
      ((⟨4, 4, 4, 4⟩ : ChannelResult).env + (⟨4, 4, 4, 4⟩ : ChannelResult).org +
        (⟨4, 4, 4, 4⟩ : ChannelResult).ind) / 3
    ∧ emptyAllScores.channels.map Prod.fst = channel_keys
    ∧ emptyAllScores.total_score =
        ((emptyAllScores.channels.map fun p => p.2.channel_average).sum) / 6 := by
  have h0 : calculate_all_scores [] = Except.ok emptyAllScores := by
    rw [all_scores_no_keys [] (by decide)]
    norm_num [emptyAllScores]
  have hk := kv_C2_category_and_overall [] emptyAllScores h0
  exact ⟨hk.1 1 ⟨4, 4, 4, 4⟩ (by decide), hk.2.1, hk.2.2⟩

/-- C5 counterexample: a response dict holding only a free-text comment entry
(`comment_0`) and no answered question still reports `response_count = 1` —
the engine counts every non-null dict entry, comments included, contradicting
the claim that comments are not counted. -/
theorem kv_C5_counterexample :
    (calculate_all_scores [("comment_0", Answer.str "great insight")]).map
        (fun r => r.response_count) = Except.ok 1 := by
  rw [all_scores_no_keys [("comment_0", Answer.str "great insight")] (by decide)]
  rfl

/-- C5 as amended: the completion statistics count every non-null entry of
the response dict — including free-text comment entries — and report that
count together with its ratio over the total question count 54. -/
theorem kv_C5_completion (responses : Responses) (res : AllScores)
    (h : calculate_all_scores responses = Except.ok res) :
    res.response_count = (responses.filter fun p => p.2 != Answer.null).length
    ∧ res.completion_rate = (res.response_count : ℚ) / 54 :=
  response_count_of_ok responses res h

/-- C5 witness: a dict with one non-null comment and one null entry counts
exactly 1, with ratio 1/54, via `kv_C5_completion`. -/
theorem kv_C5_completion_witness :
    (calculate_all_scores [("comment_0", Answer.str "x"), ("comment_1", Answer.null)]).map
        (fun r => (r.response_count, r.completion_rate)) = Except.ok (1, 1 / 54) := by
  obtain ⟨res, hres⟩ :
      ∃ r, calculate_all_scores [("comment_0", Answer.str "x"), ("comment_1", Answer.null)] =
        Except.ok r :=
    ⟨_, all_scores_no_keys [("comment_0", Answer.str "x"), ("comment_1", Answer.null)]
      (by decide)⟩
  have hk := kv_C5_completion _ res hres
  have hlen : ((([("comment_0", Answer.str "x"), ("comment_1", Answer.null)] :
      Responses).filter fun p => p.2 != Answer.null)).length = 1 := by decide
  rw [hres]
  simp only [Except.map]
  rw [hk.2, hk.1, hlen]
  norm_num

/-- Two response dicts that agree on all mapping keys select the same
relevant entries. -/
theorem relevantEntries_congr (r1 r2 : Responses)
    (h : ∀ k ∈ question_mapping.map Prod.fst, rlookup r1 k = rlookup r2 k)
    (factor : String) (channel : ℕ) :
    relevantEntries r1 factor channel = relevantEntries r2 factor channel := by
  unfold relevantEntries
  apply List.filter_congr
  intro p hp
  rw [h p.1 (List.mem_map_of_mem Prod.fst hp)]

/-- Score accumulation only consults the lookups of the listed keys. -/
theorem collectScores_congr (r1 r2 : Responses) :
    ∀ l : List (String × QInfo),
      (∀ p ∈ l, rlookup r1 p.1 = rlookup r2 p.1) →
      collectScores r1 l = collectScores r2 l := by
  intro l
  induction l with
  | nil => intro _; rfl
  | cons p ps ih =>
      intro h
      have hp := h p (List.mem_cons_self p ps)
      have hps := ih fun q hq => h q (List.mem_cons_of_mem p hq)
      simp only [collectScores, hp, hps]

/-- Sub-factor scores only depend on the response dict through the mapping
keys. -/
theorem factor_score_congr (r1 r2 : Responses)
    (h : ∀ k ∈ question_mapping.map Prod.fst, rlookup r1 k = rlookup r2 k)
    (factor : String) (channel : ℕ) :
    calculate_factor_score r1 factor channel = calculate_factor_score r2 factor channel := by
  unfold calculate_factor_score
  rw [relevantEntries_congr r1 r2 h factor channel,
    collectScores_congr r1 r2 (relevantEntries r2 factor channel)]
  intro p hp
  exact h p.1 (List.mem_map_of_mem Prod.fst (List.mem_of_mem_filter hp))

/-- Channel scores only depend on the response dict through the mapping
keys. -/
theorem channel_score_congr (r1 r2 : Responses)
    (h : ∀ k ∈ question_mapping.map Prod.fst, rlookup r1 k = rlookup r2 k) (c : ℕ) :
    calculate_channel_score r1 c = calculate_channel_score r2 c := by
  unfold calculate_channel_score
  rw [factor_score_congr r1 r2 h "env" c, factor_score_congr r1 r2 h "org" c,
    factor_score_congr r1 r2 h "ind" c]

/-- The channel loop only depends on the response dict through the mapping
keys. -/
theorem channelLoop_congr (r1 r2 : Responses)
    (h : ∀ k ∈ question_mapping.map Prod.fst, rlookup r1 k = rlookup r2 k) :
    ∀ ns : List ℕ, channelLoop r1 ns = channelLoop r2 ns := by
  intro ns
  induction ns with
  | nil => rfl
  | cons n ns ih =>
      unfold channelLoop
      rw [channel_score_congr r1 r2 h n, ih]

/-- C10: the engine's built-in mapping holds exactly the 54 keys `q_0`..`q_53`
partitioned into 6 channels of 9 questions and 3 factors of 18 questions; all
factor / channel / total scores are computed over this fixed mapping alone,
so response entries outside its keys (comments included) never change any
score — while every non-null entry still counts in `response_count`. -/
theorem kv_C10_fixed_mapping :
    question_mapping.length = 54
    ∧ question_mapping.map Prod.fst = (List.range 54).map (fun i => "q_" ++ toString i)
    ∧ (channel_keys.map fun c =>
        (question_mapping.filter fun p => p.2.channel == c).length) = [9, 9, 9, 9, 9, 9]
    ∧ ((["env", "org", "ind"].map fun f =>
        (question_mapping.filter fun p => p.2.factor == f).length) = [18, 18, 18])
    ∧ (question_mapping.all fun p =>
        decide (p.2.channel ∈ channel_keys) && decide (p.2.factor ∈ ["env", "org", "ind"])) =
      true
    ∧ (∀ r1 r2 : Responses,
        (∀ k ∈ question_mapping.map Prod.fst, rlookup r1 k = rlookup r2 k) →
        (calculate_all_scores r1).map scorePart = (calculate_all_scores r2).map scorePart)
    ∧ (∀ (rs : Responses) (res : AllScores), calculate_all_scores rs = Except.ok res →
        res.response_count = (rs.filter fun p => p.2 != Answer.null).length) := by
  refine ⟨by decide, by decide, by decide, by decide, by decide, ?_, ?_⟩
  · intro r1 r2 h
    unfold calculate_all_scores
    rw [channelLoop_congr r1 r2 h channel_keys]
    cases hl : channelLoop r2 channel_keys with
    | error e => rfl
    | ok cs => rfl
  · intro rs res h
    exact (response_count_of_ok rs res h).1

/-- C10 witness: adding a comment entry and an entry with an unknown key to a
response dict leaves every channel and total score unchanged (via
`kv_C10_fixed_mapping`), and a dict holding only an unknown non-null key still
counts it in `response_count`. -/
theorem kv_C10_fixed_mapping_witness :
    (calculate_all_scores
        [("q_7", Answer.int 3), ("comment_7", Answer.str "note"), ("junk", Answer.int 9)]).map
        scorePart =
      (calculate_all_scores [("q_7", Answer.int 3)]).map scorePart
    ∧ (calculate_all_scores [("junk", Answer.int 9)]).map (fun r => r.response_count) =
      Except.ok 1 := by
  constructor
  · exact kv_C10_fixed_mapping.2.2.2.2.2.1 _ _ (by decide)
  · obtain ⟨res, hres⟩ :
        ∃ r, calculate_all_scores [("junk", Answer.int 9)] = Except.ok r :=
      ⟨_, all_scores_no_keys [("junk", Answer.int 9)] (by decide)⟩
    have hk := kv_C10_fixed_mapping.2.2.2.2.2.2 _ res hres
    rw [hres]
    simp only [Except.map]
    rw [hk]
    rfl

/-- One extractor row emits questions whose identifiers continue the running
counter sequentially, and advances the counter by exactly the number of
emitted questions. -/
theorem processRow_shape (st : ExtractState) (row : Row) :
    ((processRow st row).2.map Question.id) =
      (List.range (processRow st row).2.length).map
        (fun k => "q_" ++ toString (st.question_counter + k))
    ∧ (processRow st row).1.question_counter =
        st.question_counter + (processRow st row).2.length := by
  unfold processRow
  cases h1 : emitsText row.likert_text <;> cases h2 : emitsText row.yesno_text <;>
    simp [h1, h2, List.range_succ]

/-- Folding the extractor over any row list yields identifiers that continue
the initial counter sequentially. -/
theorem extractAux_ids :
    ∀ (rows : List Row) (st : ExtractState),
      (extractAux st rows).map Question.id =
        (List.range (extractAux st rows).length).map
          (fun k => "q_" ++ toString (st.question_counter + k)) := by
  intro rows
  induction rows with
  | nil => intro st; rfl
  | cons r rs ih =>
      intro st
      rw [show extractAux st (r :: rs) =
          (processRow st r).2 ++ extractAux (processRow st r).1 rs from rfl]
      rw [List.map_append, (processRow_shape st r).1, ih (processRow st r).1,
        (processRow_shape st r).2, List.length_append, List.range_add]
      simp [List.map_map, Function.comp, Nat.add_assoc]

/-- C8: the extractor assigns sequential identifiers `q_0`, `q_1`, ... in
row-then-column order over the whole sheet; each row emits zero, one, or two
questions, a likert one always before a yes/no one; the row's emitted context
is the carry-forward update of the running context, where a missing or blank
cell keeps the previous value; and a row whose question cells fail the length
threshold emits nothing and leaves the counter unchanged while its context
cells still update the running state. -/
theorem kv_C8_extractor :
    (∀ rows : List Row,
        (extract_structured_questions rows).map Question.id =
          (List.range (extract_structured_questions rows).length).map
            (fun k => "q_" ++ toString k))
    ∧ (∀ (st : ExtractState) (row : Row),
        (processRow st row).2.map Question.qtype = []
        ∨ (processRow st row).2.map Question.qtype = ["likert"]
        ∨ (processRow st row).2.map Question.qtype = ["yesno"]
        ∨ (processRow st row).2.map Question.qtype = ["likert", "yesno"])
    ∧ (∀ (st : ExtractState) (row : Row),
        (processRow st row).1.current_channel = updateCtx st.current_channel row.channels
        ∧ (processRow st row).1.current_factor = updateCtx st.current_factor row.factors
        ∧ (processRow st row).1.current_actor = updateCtx st.current_actor row.actors)
    ∧ (∀ cur : Option String, updateCtx cur Option.none = cur)
    ∧ (∀ (cur : Option String) (s : String), pyStrip s = "" →
        updateCtx cur (Option.some s) = cur)
    ∧ (∀ (st : ExtractState) (row : Row),
        emitsText row.likert_text = false → emitsText row.yesno_text = false →
        (processRow st row).2 = []
          ∧ (processRow st row).1.question_counter = st.question_counter) := by
  refine ⟨?_, ?_, ?_, ?_, ?_, ?_⟩
  · intro rows
    simpa [extract_structured_questions, initState] using extractAux_ids rows initState
  · intro st row
    unfold processRow
    cases h1 : emitsText row.likert_text <;> cases h2 : emitsText row.yesno_text <;>
      simp [h1, h2]
  · exact fun st row => ⟨rfl, rfl, rfl⟩
  · exact fun cur => rfl
  · intro cur s h
    unfold updateCtx
    simp [h]
  · intro st row h1 h2
    unfold processRow
    exact ⟨by simp [h1, h2], by simp [h1, h2]⟩

/-- C8 witness: a context-only first row (no question text) emits nothing and
leaves the counter at 0 while updating the channel context; the following
question row inherits that context and receives identifiers `q_0` (likert
cell) then `q_1` (yes/no cell); a blank context cell keeps the old value. -/
theorem kv_C8_extractor_witness :
    (extract_structured_questions
        [⟨Option.some "n.1 Chan", Option.some "env", Option.some "ACTOR A",
          Option.none, Option.none⟩,
         ⟨Option.none, Option.none, Option.none,
          Option.some "Policy frameworks support collaboration",
          Option.some "Are there agreements with industry?"⟩]).map Question.id =
      ["q_0", "q_1"]
    ∧ updateCtx (Option.some "kept") (Option.some "   ") = Option.some "kept"
    ∧ (processRow initState
        ⟨Option.some "n.1 Chan", Option.some "env", Option.some "ACTOR A",
          Option.none, Option.none⟩).2 = []
    ∧ (processRow initState
        ⟨Option.some "n.1 Chan", Option.some "env", Option.some "ACTOR A",
          Option.none, Option.none⟩).1.question_counter = 0
    ∧ (processRow initState
        ⟨Option.some "n.1 Chan", Option.some "env", Option.some "ACTOR A",
          Option.none, Option.none⟩).1.current_channel = Option.some "n.1 Chan" := by
  refine ⟨?_, ?_, ?_, ?_, ?_⟩
  · rw [kv_C8_extractor.1]
    decide
  · exact kv_C8_extractor.2.2.2.2.1 (Option.some "kept") "   " (by decide)
  · exact (kv_C8_extractor.2.2.2.2.2 initState _ (by decide) (by decide)).1
  · exact (kv_C8_extractor.2.2.2.2.2 initState _ (by decide) (by decide)).2
  · rw [(kv_C8_extractor.2.2.1 initState _).1]
    decide

end KV
